import Mathlib

/-
Verification of the homework-status polling bot (`homework.py`) against its
natural-language specification.

The source is shallowly embedded: Python exceptions become an explicit error
value `PyErr` (class name plus message) threaded through `Except`; JSON values
returned by the remote API become the inductive `JVal`; the behaviour of the
two external services (the status HTTP endpoint and the Telegram provider) is
a parameter of each cycle (`HttpResult`, `SendResult`).  The poll loop's
mutable variables `last_status` and `timestamp` form `LoopState`, one loop
iteration is `runCycle`, and the whole program is `main`.
-/

namespace Homework

/-- Python/JSON values as they appear in API responses.  `jnull` is Python
`None`. -/
inductive JVal where
  | jnull
  | jbool (b : Bool)
  | jint (n : Int)
  | jstr (s : String)
  | jlist (xs : List JVal)
  | jdict (fields : List (String × JVal))

/-- A raised Python exception: its class name and its message (`str(e)` except
for `KeyError`, see `errStr`). -/
structure PyErr where
  cls : String
  msg : String
deriving DecidableEq

/-- `d.get(key)` on a Python dict: the value when the key is present. -/
def dictGet : List (String × JVal) → String → Option JVal
  | [], _ => none
  | (k, v) :: rest, key => if k = key then some v else dictGet rest key

mutual
/-- Python `repr` of a JSON value (`str` and `repr` agree on everything the
program ever formats except top-level strings, see `pyStr`). -/
def pyRepr : JVal → String
  | .jnull => "None"
  | .jbool b => if b then "True" else "False"
  | .jint n => toString n
  | .jstr s => "'" ++ s ++ "'"
  | .jlist xs => "[" ++ pyReprList xs ++ "]"
  | .jdict fs => "\x7b" ++ pyReprDict fs ++ "\x7d"

/-- Comma-separated `repr`s of list elements. -/
def pyReprList : List JVal → String
  | [] => ""
  | [x] => pyRepr x
  | x :: xs => pyRepr x ++ ", " ++ pyReprList xs

/-- Comma-separated `'key': repr(value)` pairs of dict entries. -/
def pyReprDict : List (String × JVal) → String
  | [] => ""
  | [(k, v)] => "'" ++ k ++ "': " ++ pyRepr v
  | (k, v) :: fs => "'" ++ k ++ "': " ++ pyRepr v ++ ", " ++ pyReprDict fs
end

/-- Python `str` of a value, as used by f-string interpolation: a string
renders as itself, everything else as its `repr`. -/
def pyStr : JVal → String
  | .jstr s => s
  | v => pyRepr v

/-- How an exception instance renders inside an f-string: `str(e)`.  For
`KeyError`, Python's `str` is the `repr` of the key, so the message gains
surrounding quotes. -/
def errStr (e : PyErr) : String :=
  if e.cls = "KeyError" then "'" ++ e.msg ++ "'" else e.msg

/-- `RETRY_PERIOD = 600`, the fixed sleep between cycles. -/
def RETRY_PERIOD : Nat := 600

/-- `ENDPOINT` of the status service. -/
def ENDPOINT : String := "https://practicum.yandex.ru/api/user_api/homework_statuses/"

/-- `HOMEWORK_VERDICTS`: the static three-entry status-to-phrase table. -/
def HOMEWORK_VERDICTS : List (String × String) :=
  [("approved", "Работа проверена: ревьюеру всё понравилось. Ура!"),
   ("reviewing", "Работа взята на проверку ревьюером."),
   ("rejected", "Работа проверена: у ревьюера есть замечания.")]

/-- Lookup in a string-keyed table (Python dict indexing/membership for the
verdict table). -/
def lookupStr : List (String × String) → String → Option String
  | [], _ => none
  | (k, v) :: rest, key => if k = key then some v else lookupStr rest key

/-- `status in HOMEWORK_VERDICTS` combined with `HOMEWORK_VERDICTS.get(status)`:
Python dict membership compares the value against the (string) keys, so any
non-string status is simply not a member. -/
def verdictOf : JVal → Option String
  | .jstr s => lookupStr HOMEWORK_VERDICTS s
  | _ => none

/-- Python truthiness of an optional environment string: `not token` holds for
an absent variable (`None`) and for the empty string alike. -/
def tokenFalsy : Option String → Bool
  | none => true
  | some s => s = ""

/-- `check_tokens()`: collect the names of all missing environment variables
and raise a single `EnvironmentError` listing them; do nothing when all three
are set.  The `EnvironmentError` class itself lives in the repository's
`exceptions` module, which is not part of the provided sources; it is modelled
from the spec's `ConfigError` as a plain exception kind. -/
def check_tokens (practicum telegram chat_id : Option String) : Except PyErr Unit :=
  let tokens := [("PRACTICUM_TOKEN", practicum),
                 ("TELEGRAM_TOKEN", telegram),
                 ("TELEGRAM_CHAT_ID", chat_id)]
  let check := tokens.foldl (fun acc nt => if tokenFalsy nt.2 then acc ++ [nt.1] else acc) []
  if check.isEmpty then .ok ()
  else .error ⟨"EnvironmentError",
    "Отсутствует переменная(ые) окружения: " ++ String.intercalate ", " check⟩

/-- One observable behaviour of the Telegram provider for one send attempt.
`apiError` is the `ApiException` the source catches — the provider-level
failure of the messaging API. -/
inductive SendResult where
  | ok
  | apiError (detail : String)
deriving DecidableEq

/-- `bot.send_message(...)`: succeeds or raises `ApiException`. -/
def bot_send : SendResult → Except String Unit
  | .ok => .ok ()
  | .apiError e => .error e

/-- `send_message(bot, message)`: the `ApiException` is caught and logged and
`False` is returned; `True` is returned only after the provider accepted the
message.  The function is total — no exception leaves it. -/
def send_message (provider : SendResult) : Bool :=
  match bot_send provider with
  | .error _ => false
  | .ok () => true

/-- One observable behaviour of the HTTP layer for one request:
`requests.get` raises a `RequestException`, or returns a response with a
status code and a body that either parses as JSON or does not. -/
inductive HttpResult where
  | netFail
  | resp (status : Nat) (body : Except String JVal)

/-- Python repr of the `HEADERS` dict (embedded in the transport error
message). -/
def headersStr (token : String) : String :=
  "\x7b'Authorization': 'OAuth " ++ token ++ "'\x7d"

/-- Python repr of the `params` dict `from_date=<timestamp>` (embedded in both
request error messages). -/
def paramsStr (timestamp : JVal) : String :=
  "\x7b'from_date': " ++ pyRepr timestamp ++ "\x7d"

/-- Message of the `ConnectionError` raised on a network-level failure
(embeds endpoint, headers and params). -/
def transportMsg (token : String) (timestamp : JVal) : String :=
  "Ошибка при запросе к эндпоинту " ++ ENDPOINT ++ " с параметрами: "
    ++ headersStr token ++ " и " ++ paramsStr timestamp

/-- Message of the `ConnectionError` raised on a non-OK HTTP status
(embeds endpoint and params only). -/
def protocolMsg (timestamp : JVal) : String :=
  "Ошибка при запросе к эндпоинту " ++ ENDPOINT ++ " с параметрами: "
    ++ paramsStr timestamp

/-- `get_api_answer(timestamp)`: a `RequestException` becomes a
`ConnectionError`; a non-200 status becomes a `ConnectionError`; an
unparsable body becomes a `ValueError`; otherwise the parsed JSON is
returned. -/
def get_api_answer (token : String) (http : HttpResult) (timestamp : JVal) :
    Except PyErr JVal :=
  match http with
  | .netFail => .error ⟨"ConnectionError", transportMsg token timestamp⟩
  | .resp status body =>
    if status ≠ 200 then
      .error ⟨"ConnectionError", protocolMsg timestamp⟩
    else
      match body with
      | .error e => .error ⟨"ValueError", "Ошибка при преобразовании ответа в JSON: " ++ e⟩
      | .ok v => .ok v

/-- `check_response(response)`: `TypeError` when the response is not a dict,
`KeyError` when the `homeworks` key is absent, `TypeError` when its value is
not a list (note the missing space in the source's concatenated message),
otherwise the homework list. -/
def check_response (response : JVal) : Except PyErr (List JVal) :=
  match response with
  | .jdict fields =>
    match dictGet fields "homeworks" with
    | none => .error ⟨"KeyError", "Ключ \"homeworks\" отсутствует в ответе API"⟩
    | some hws =>
      match hws with
      | .jlist xs => .ok xs
      | _ => .error ⟨"TypeError", "Некорректный формат данных о домашнихработах в ответе API"⟩
  | _ => .error ⟨"TypeError", "Некорректный формат ответа API: ожидается словарь"⟩

/-- `x is None` after a `.get`: the key is absent, or present with value
`None`. -/
def isNoneLike : Option JVal → Bool
  | none => true
  | some .jnull => true
  | some _ => false

/-- The `KeyError` message of `parse_status`. -/
def parseKeyMsg : String :=
  "Отсутствует ключ \"homework_name\" или \"status\" в объекте homework"

/-- `parse_status(homework)`: `KeyError` when `homework_name` or `status` is
missing (or `None`), `ValueError` naming the bad value when the status is not
in the verdict table, otherwise the fixed-template message.  A non-dict
argument has no `.get` attribute, so Python raises `AttributeError`. -/
def parse_status (homework : JVal) : Except PyErr String :=
  match homework with
  | .jdict fields =>
    let homework_name := dictGet fields "homework_name"
    let status := dictGet fields "status"
    if isNoneLike homework_name || isNoneLike status then
      .error ⟨"KeyError", parseKeyMsg⟩
    else
      match homework_name, status with
      | some nameVal, some statusVal =>
        match verdictOf statusVal with
        | none => .error ⟨"ValueError", "Неверный статус домашней работы: " ++ pyStr statusVal⟩
        | some verdict =>
          .ok ("Изменился статус проверки работы \"" ++ pyStr nameVal ++ "\". " ++ verdict)
      | _, _ => .error ⟨"KeyError", parseKeyMsg⟩
  | other => .error ⟨"AttributeError", "object has no attribute get: " ++ pyRepr other⟩

/-- The two mutable variables of `main`'s loop: `last_status` (the
NotificationState) and `timestamp` (the poll cursor). -/
structure LoopState where
  last_status : String
  timestamp : JVal

/-- The external world of one cycle: what the HTTP layer does on this cycle's
request and what the provider does if a send is attempted (at most one send
happens per cycle). -/
structure CycleEnv where
  http : HttpResult
  provider : SendResult

/-- `response.get('current_date', timestamp)`; `check_response` has already
guaranteed the response is a dict when this is evaluated. -/
def jvalGetD (response : JVal) (key : String) (dflt : JVal) : JVal :=
  match response with
  | .jdict fields =>
    match dictGet fields key with
    | some v => v
    | none => dflt
  | _ => dflt

/-- The `try` block of one loop iteration: fetch, validate, skip when the
homework list is empty (`continue`), otherwise translate the first record and
send it; on a successful send update `last_status` and advance `timestamp` to
`current_date` (defaulting to the prior value).  The returned list collects
the messages passed to `send_message`. -/
def cycleBody (token : String) (env : CycleEnv) (s : LoopState) :
    Except PyErr (LoopState × List String) :=
  match get_api_answer token env.http s.timestamp with
  | .error e => .error e
  | .ok response =>
    match check_response response with
    | .error e => .error e
    | .ok [] => .ok (s, [])
    | .ok (hw :: _) =>
      match parse_status hw with
      | .error e => .error e
      | .ok status_home_work =>
        if send_message env.provider then
          .ok ({ last_status := status_home_work,
                 timestamp := jvalGetD response "current_date" s.timestamp },
               [status_home_work])
        else .ok (s, [status_home_work])

/-- The failure message built in the `except` handler. -/
def failMsg (e : PyErr) : String :=
  "Сбой в работе программы: " ++ errStr e

/-- Outcome of one full loop iteration: the state afterwards, the messages
passed to `send_message` (in order), and whether the `finally` sleep ran. -/
structure CycleResult where
  state : LoopState
  sends : List String
  slept : Bool

/-- One full iteration of `main`'s `while True` loop: run the `try` block;
on any exception build the failure message and, when it differs from
`last_status`, attempt to send it, recording it on success; the `finally`
clause sleeps in every branch (also after `continue`). -/
def runCycle (token : String) (env : CycleEnv) (s : LoopState) : CycleResult :=
  match cycleBody token env s with
  | .ok (s', sends) => { state := s', sends := sends, slept := true }
  | .error err =>
    let message := failMsg err
    if s.last_status = message then
      { state := s, sends := [], slept := true }
    else if send_message env.provider then
      { state := { s with last_status := message }, sends := [message], slept := true }
    else
      { state := s, sends := [message], slept := true }

/-- Iterate the loop over a finite prefix of cycle environments, collecting
every message passed to `send_message`. -/
def runCycles (token : String) : List CycleEnv → LoopState → LoopState × List String
  | [], s => (s, [])
  | env :: rest, s =>
    let r := runCycle token env s
    let (sEnd, sends) := runCycles token rest r.state
    (sEnd, r.sends ++ sends)

/-- The initial loop state: `last_status` starts as the empty string and the
cursor at 0. -/
def initState : LoopState := { last_status := "", timestamp := .jint 0 }

/-- The string `PRACTICUM_TOKEN` interpolates to inside `HEADERS`. -/
def envTokenStr : Option String → String
  | some s => s
  | none => "None"

/-- `main()` observed over a finite prefix of cycles: `check_tokens` may raise
before the loop starts; the loop itself never raises. -/
def main (practicum telegram chat_id : Option String) (envs : List CycleEnv) :
    Except PyErr (LoopState × List String) :=
  match check_tokens practicum telegram chat_id with
  | .error e => .error e
  | .ok () => .ok (runCycles (envTokenStr practicum) envs initState)

/-- The status message and response of a cycle that reaches the Notifier call
for a status message: fetch, validation and translation all succeeded on a
non-empty homework list.  Used to state exactly when the cursor may move. -/
def statusOutcome (token : String) (env : CycleEnv) (s : LoopState) :
    Option (String × JVal) :=
  match get_api_answer token env.http s.timestamp with
  | .error _ => none
  | .ok response =>
    match check_response response with
    | .error _ => none
    | .ok [] => none
    | .ok (hw :: _) =>
      match parse_status hw with
      | .error _ => none
      | .ok m => some (m, response)

/-- The exception class of a failed fetch (empty when the fetch succeeded). -/
def errClsOf : Except PyErr JVal → String
  | .error e => e.cls
  | .ok _ => ""

/-- Spec-side description of `check_tokens`: the names of the unset
environment variables, in declaration order. -/
def missingNames (p t c : Option String) : List String :=
  (if tokenFalsy p then ["PRACTICUM_TOKEN"] else [])
    ++ (if tokenFalsy t then ["TELEGRAM_TOKEN"] else [])
    ++ (if tokenFalsy c then ["TELEGRAM_CHAT_ID"] else [])

/-- Scenario A homework record. -/
def hwApproved : JVal :=
  .jdict [("homework_name", .jstr "hw1"), ("status", .jstr "approved")]

/-- Scenario A response. -/
def respA : JVal :=
  .jdict [("homeworks", .jlist [hwApproved]), ("current_date", .jint 100)]

/-- Scenario A cycle: HTTP 200 with the scenario response, provider accepts. -/
def envA : CycleEnv := { http := .resp 200 (.ok respA), provider := .ok }

/-- Scenario A expected message. -/
def msgA : String :=
  "Изменился статус проверки работы \"hw1\". Работа проверена: ревьюеру всё понравилось. Ура!"

/-- Scenario B response: empty homework list. -/
def respB : JVal := .jdict [("homeworks", .jlist []), ("current_date", .jint 100)]

/-- Scenario B cycle. -/
def envB : CycleEnv := { http := .resp 200 (.ok respB), provider := .ok }

/-- Scenario D cycle: HTTP 500, provider accepts. -/
def env500 : CycleEnv := { http := .resp 500 (.ok .jnull), provider := .ok }

/-- The exception `get_api_answer` raises on a 500 status at cursor 0. -/
def err500 : PyErr := ⟨"ConnectionError", protocolMsg (.jint 0)⟩

/-- Whether the body raises, and which exception, depends only on the cursor,
not on `last_status`. -/
lemma cycleBody_error_congr (token : String) (env : CycleEnv) (s s' : LoopState)
    (hts : s'.timestamp = s.timestamp) (e : PyErr)
    (h : cycleBody token env s = .error e) : cycleBody token env s' = .error e := by
  unfold cycleBody at h ⊢
  rw [hts]
  cases hA : get_api_answer token env.http s.timestamp with
  | error e1 => simp only [hA] at h ⊢; exact h
  | ok response =>
    simp only [hA] at h ⊢
    cases hB : check_response response with
    | error e1 => simp only [hB] at h ⊢; exact h
    | ok hws =>
      simp only [hB] at h ⊢
      cases hws with
      | nil => simp at h
      | cons hw rest =>
        cases hC : parse_status hw with
        | error e1 => simp only [hC] at h ⊢; exact h
        | ok m =>
          simp only [hC] at h
          cases hS : send_message env.provider <;> simp [hS] at h

/-- The only exception `check_tokens` can raise is the `EnvironmentError`
listing the missing variables. -/
lemma check_tokens_error (p t c : Option String) (e : PyErr)
    (h : check_tokens p t c = .error e) : e.cls = "EnvironmentError" := by
  simp only [check_tokens] at h
  split at h
  · exact absurd h (by simp)
  · injection h with h2
    rw [← h2]

/-- A cycle whose body returned normally ends with the body's state and
sends, and sleeps. -/
lemma runCycle_ok_eq (token : String) (env : CycleEnv) (s s' : LoopState)
    (sends : List String) (h : cycleBody token env s = .ok (s', sends)) :
    runCycle token env s = { state := s', sends := sends, slept := true } := by
  unfold runCycle
  rw [h]

/-- A cycle whose body raised runs the `except` handler: dedup check, one
optional send of the failure message, state update only on a successful
send; the `finally` sleep runs in every branch. -/
lemma runCycle_error_eq (token : String) (env : CycleEnv) (s : LoopState)
    (err : PyErr) (h : cycleBody token env s = .error err) :
    runCycle token env s =
      if s.last_status = failMsg err then { state := s, sends := [], slept := true }
      else if send_message env.provider then
        { state := { s with last_status := failMsg err },
          sends := [failMsg err], slept := true }
      else { state := s, sends := [failMsg err], slept := true } := by
  unfold runCycle
  rw [h]

/-- `last_status` never moves the cursor: the handler leaves `timestamp`
unchanged whatever the dedup and send outcomes are. -/
lemma runCycle_error_timestamp (token : String) (env : CycleEnv) (s : LoopState)
    (err : PyErr) (h : cycleBody token env s = .error err) :
    (runCycle token env s).state.timestamp = s.timestamp := by
  rw [runCycle_error_eq token env s err h]
  split
  · rfl
  · split <;> rfl

/-- When a failing cycle changes `last_status`, the provider accepted the
send and the new `last_status` is exactly the message that was sent. -/
lemma runCycle_error_change (token : String) (env : CycleEnv) (s : LoopState)
    (err : PyErr) (hb : cycleBody token env s = .error err)
    (hchange : (runCycle token env s).state.last_status ≠ s.last_status) :
    env.provider = SendResult.ok ∧
    (runCycle token env s).sends = [(runCycle token env s).state.last_status] := by
  rw [runCycle_error_eq token env s err hb] at hchange ⊢
  by_cases h1 : s.last_status = failMsg err
  · rw [if_pos h1] at hchange
    exact absurd rfl hchange
  · rw [if_neg h1] at hchange ⊢
    cases hp : env.provider with
    | ok =>
      rw [if_pos (show send_message SendResult.ok = true from rfl)]
      exact ⟨rfl, rfl⟩
    | apiError d =>
      rw [hp] at hchange
      rw [if_neg (show ¬ send_message (SendResult.apiError d) = true from by
        simp [send_message, bot_send])] at hchange
      exact absurd rfl hchange

/-- C6: one cycle on the Scenario A response produces exactly the message
"Изменился статус проверки работы \"hw1\". Работа проверена: ревьюеру всё
понравилось. Ура!", passes it to the Notifier exactly once, and, the provider
having accepted, sets the cursor to 100. -/
theorem spec_C6 :
    runCycle "tok" envA initState =
      { state := { last_status := msgA, timestamp := .jint 100 },
        sends := [msgA], slept := true } ∧
    msgA = "Изменился статус проверки работы \"hw1\". " ++
      "Работа проверена: ревьюеру всё понравилось. Ура!" := ⟨rfl, rfl⟩

/-- C1 counterexample: two consecutive cycles both producing the Scenario A
status message call the Notifier twice, although after the first cycle the
message already equals `NotificationState` — the success path has no dedup
check, contradicting the claim that such a message is never sent a second
time. -/
theorem spec_C1_counterexample :
    (runCycle "tok" envA initState).state.last_status = msgA ∧
    (runCycles "tok" [envA, envA] initState).2 = [msgA, msgA] := ⟨rfl, rfl⟩

/-- C1 (amended): only failure messages are deduplicated against
`NotificationState`: two consecutive cycles raising the same exception result
in exactly one Notifier call across both (the second cycle sends nothing),
while a cycle that reaches the status-message send always calls the Notifier,
regardless of `NotificationState`. -/
theorem spec_C1_amended (token : String) (env : CycleEnv) (s : LoopState) :
    (∀ err, cycleBody token env s = .error err → env.provider = SendResult.ok →
      s.last_status ≠ failMsg err →
      (runCycle token env s).sends = [failMsg err] ∧
      (runCycle token env (runCycle token env s).state).sends = []) ∧
    (∀ s' m, cycleBody token env s = .ok (s', [m]) →
      (runCycle token env s).sends = [m]) := by
  constructor
  · intro err h hok hne
    have hsend : send_message env.provider = true := by rw [hok]; rfl
    have h1 : runCycle token env s =
        { state := { s with last_status := failMsg err },
          sends := [failMsg err], slept := true } := by
      unfold runCycle
      rw [h]
      simp [hne, hsend]
    constructor
    · rw [h1]
    · have h2 : cycleBody token env { s with last_status := failMsg err } = .error err :=
        cycleBody_error_congr token env s { s with last_status := failMsg err } rfl err h
      rw [h1]
      show (runCycle token env { s with last_status := failMsg err }).sends = []
      unfold runCycle
      rw [h2]
      simp
  · intro s' m h
    unfold runCycle
    rw [h]

/-- C1 amended witness: a 500-status cycle from the initial state notifies the
failure message once; rerunning the identical cycle sends nothing. -/
theorem spec_C1_amended_witness :
    cycleBody "tok" env500 initState = .error err500 ∧
    (runCycle "tok" env500 initState).sends = [failMsg err500] ∧
    (runCycle "tok" env500 (runCycle "tok" env500 initState).state).sends = [] := by
  have h := (spec_C1_amended "tok" env500 initState).1 err500 rfl rfl (by decide)
  exact ⟨rfl, h.1, h.2⟩

/-- C4: a cycle whose validated homework list is empty makes no Notifier
call, leaves both `last_status` and the cursor unchanged, and still performs
the fixed sleep before the next cycle. -/
theorem spec_C4 (token : String) (env : CycleEnv) (s : LoopState) (response : JVal)
    (hA : get_api_answer token env.http s.timestamp = .ok response)
    (hB : check_response response = .ok []) :
    runCycle token env s = { state := s, sends := [], slept := true } := by
  have hb : cycleBody token env s = .ok (s, []) := by
    unfold cycleBody
    simp only [hA, hB]
  unfold runCycle
  rw [hb]

/-- C4 witness: the Scenario B response (empty list) leaves the initial state
untouched, sends nothing, and sleeps. -/
theorem spec_C4_witness :
    get_api_answer "tok" envB.http initState.timestamp = .ok respB ∧
    check_response respB = .ok [] ∧
    runCycle "tok" envB initState = { state := initState, sends := [], slept := true } :=
  ⟨rfl, rfl, spec_C4 "tok" envB initState respB rfl rfl⟩

/-- C8: the send operation returns a boolean — `true` exactly when the
provider confirmed acceptance, `false` on a provider-level failure
(`ApiException`), which is caught rather than propagated: `send_message` is a
total function into `Bool`. -/
theorem spec_C8 (provider : SendResult) :
    (send_message provider = true ↔ bot_send provider = .ok ()) ∧
    (∀ detail, provider = SendResult.apiError detail → send_message provider = false) := by
  cases provider <;> simp [send_message, bot_send]

/-- C8 witness: a provider failure yields `false`. -/
theorem spec_C8_witness : send_message (SendResult.apiError "boom") = false :=
  (spec_C8 (SendResult.apiError "boom")).2 "boom" rfl

/-- C2: for every sequence of cycle outcomes, the only exception `main` lets
escape is the startup `EnvironmentError` from the credential check; every
per-cycle error is absorbed and each cycle — normal, empty, or failing —
reaches the fixed sleep before the next one. -/
theorem spec_C2 (p t c : Option String) (envs : List CycleEnv) :
    (∀ e, Homework.main p t c envs = .error e → e.cls = "EnvironmentError") ∧
    (∀ token env s, (runCycle token env s).slept = true) := by
  constructor
  · intro e h
    unfold main at h
    cases hct : check_tokens p t c with
    | error e1 =>
      simp only [hct] at h
      injection h with h2
      exact h2 ▸ check_tokens_error p t c e1 hct
    | ok u =>
      cases u
      simp only [hct] at h
      exact absurd h (by simp)
  · intro token env s
    cases hb : cycleBody token env s with
    | ok v =>
      obtain ⟨s', sends⟩ := v
      rw [runCycle_ok_eq token env s s' sends hb]
    | error err =>
      rw [runCycle_error_eq token env s err hb]
      split
      · rfl
      · split <;> rfl

/-- C2 witness: a missing `PRACTICUM_TOKEN` makes `main` fail with the
startup `EnvironmentError`, and a concrete cycle sleeps. -/
theorem spec_C2_witness :
    Homework.main none (some "x") (some "y") [] =
      .error ⟨"EnvironmentError", "Отсутствует переменная(ые) окружения: PRACTICUM_TOKEN"⟩ ∧
    (PyErr.mk "EnvironmentError" "Отсутствует переменная(ые) окружения: PRACTICUM_TOKEN").cls
      = "EnvironmentError" ∧
    (runCycle "tok" envA initState).slept = true := by
  refine ⟨rfl, ?_, (spec_C2 none (some "x") (some "y") []).2 "tok" envA initState⟩
  exact (spec_C2 none (some "x") (some "y") []).1 _ rfl

/-- C3: the cursor moves only on a cycle that reaches the status-message
send and whose provider accepted it, and then it moves to the response's
`current_date`, defaulting to the prior cursor when the key is absent; on
every other cycle — fetch/validation/translation error, empty list, or
rejected send — the cursor is unchanged. -/
theorem spec_C3 (token : String) (env : CycleEnv) (s : LoopState) :
    (statusOutcome token env s = none →
      (runCycle token env s).state.timestamp = s.timestamp) ∧
    (∀ m response, statusOutcome token env s = some (m, response) →
      (env.provider = SendResult.ok →
        (runCycle token env s).state.timestamp =
          jvalGetD response "current_date" s.timestamp) ∧
      (env.provider ≠ SendResult.ok →
        (runCycle token env s).state.timestamp = s.timestamp)) := by
  cases hA : get_api_answer token env.http s.timestamp with
  | error e =>
    have hb : cycleBody token env s = .error e := by
      unfold cycleBody
      simp only [hA]
    constructor
    · intro _
      exact runCycle_error_timestamp token env s e hb
    · intro m response hsome
      unfold statusOutcome at hsome
      simp only [hA] at hsome
      exact Option.noConfusion hsome
  | ok response =>
    cases hB : check_response response with
    | error e =>
      have hb : cycleBody token env s = .error e := by
        unfold cycleBody
        simp only [hA, hB]
      constructor
      · intro _
        exact runCycle_error_timestamp token env s e hb
      · intro m response' hsome
        unfold statusOutcome at hsome
        simp only [hA, hB] at hsome
        exact Option.noConfusion hsome
    | ok hws =>
      cases hws with
      | nil =>
        have hb : cycleBody token env s = .ok (s, []) := by
          unfold cycleBody
          simp only [hA, hB]
        constructor
        · intro _
          rw [runCycle_ok_eq token env s s [] hb]
        · intro m response' hsome
          unfold statusOutcome at hsome
          simp only [hA, hB] at hsome
          exact Option.noConfusion hsome
      | cons hw rest =>
        cases hC : parse_status hw with
        | error e =>
          have hb : cycleBody token env s = .error e := by
            unfold cycleBody
            simp only [hA, hB, hC]
          constructor
          · intro _
            exact runCycle_error_timestamp token env s e hb
          · intro m response' hsome
            unfold statusOutcome at hsome
            simp only [hA, hB, hC] at hsome
            exact Option.noConfusion hsome
        | ok m0 =>
          constructor
          · intro hnone
            unfold statusOutcome at hnone
            simp only [hA, hB, hC] at hnone
            exact Option.noConfusion hnone
          · intro m response' hsome
            unfold statusOutcome at hsome
            simp only [hA, hB, hC, Option.some.injEq, Prod.mk.injEq] at hsome
            obtain ⟨hm, hr⟩ := hsome
            subst hr
            constructor
            · intro hok
              have hS : send_message env.provider = true := by
                rw [hok]
                rfl
              have hb : cycleBody token env s =
                  .ok ({ last_status := m0,
                         timestamp := jvalGetD response "current_date" s.timestamp }, [m0]) := by
                unfold cycleBody
                simp only [hA, hB, hC, hS, if_true]
              rw [runCycle_ok_eq token env s _ [m0] hb]
            · intro hnot
              have hS : send_message env.provider = false := by
                cases hp : env.provider with
                | ok => exact absurd hp hnot
                | apiError d => rfl
              have hb : cycleBody token env s = .ok (s, [m0]) := by
                unfold cycleBody
                simp only [hA, hB, hC, hS]
                rw [if_neg Bool.false_ne_true]
              rw [runCycle_ok_eq token env s s [m0] hb]

/-- C3 witness: the Scenario A cycle with an accepting provider moves the
cursor to the response's `current_date`. -/
theorem spec_C3_witness :
    statusOutcome "tok" envA initState = some (msgA, respA) ∧
    (runCycle "tok" envA initState).state.timestamp =
      jvalGetD respA "current_date" initState.timestamp :=
  ⟨rfl, ((spec_C3 "tok" envA initState).2 msgA respA rfl).1 rfl⟩

/-- C5 counterexample: a network-level failure and a non-success HTTP status
are raised with the same exception class, `ConnectionError` — the two error
kinds are not distinct, so a caller cannot tell them apart by kind. -/
theorem spec_C5_counterexample :
    errClsOf (get_api_answer "tok" .netFail (.jint 0)) = "ConnectionError" ∧
    errClsOf (get_api_answer "tok" (.resp 500 (.ok .jnull)) (.jint 0)) = "ConnectionError" ∧
    errClsOf (get_api_answer "tok" .netFail (.jint 0)) =
      errClsOf (get_api_answer "tok" (.resp 500 (.ok .jnull)) (.jint 0)) := ⟨rfl, rfl, rfl⟩

/-- C5 (amended): both a network-level failure and a non-success HTTP status
are reported as the same error kind, `ConnectionError`; the two cases are
distinguishable only by the message text — the transport message embeds the
request headers, the protocol message does not, so the two messages always
differ. -/
theorem spec_C5_amended (token : String) (ts : JVal) (status : Nat)
    (body : Except String JVal) (h : status ≠ 200) :
    get_api_answer token .netFail ts = .error ⟨"ConnectionError", transportMsg token ts⟩ ∧
    get_api_answer token (.resp status body) ts =
      .error ⟨"ConnectionError", protocolMsg ts⟩ ∧
    transportMsg token ts ≠ protocolMsg ts := by
  refine ⟨rfl, ?_, ?_⟩
  · simp only [get_api_answer]
    rw [if_pos h]
  · intro heq
    have hl := congrArg String.length heq
    simp only [transportMsg, protocolMsg, headersStr, String.length_append] at hl
    have hpos : 0 < ("\x7b'Authorization': 'OAuth " : String).length := by decide
    omega

/-- C5 amended witness: network failure versus HTTP 500 at cursor 0. -/
theorem spec_C5_amended_witness :
    get_api_answer "tok" .netFail (.jint 0) =
      .error ⟨"ConnectionError", transportMsg "tok" (.jint 0)⟩ ∧
    get_api_answer "tok" (.resp 500 (.ok .jnull)) (.jint 0) =
      .error ⟨"ConnectionError", protocolMsg (.jint 0)⟩ ∧
    transportMsg "tok" (.jint 0) ≠ protocolMsg (.jint 0) :=
  spec_C5_amended "tok" (.jint 0) 500 (.ok .jnull) (by decide)

/-- C7: the translator raises `KeyError` when the record lacks the name or
status field (or holds `None` there), raises `ValueError` naming the bad
value when the status is not one of the three recognized ones, and otherwise
returns the fixed-template message embedding the name and the verdict phrase
from the `HOMEWORK_VERDICTS` table. -/
theorem spec_C7 (fields : List (String × JVal)) :
    (isNoneLike (dictGet fields "homework_name") = true ∨
        isNoneLike (dictGet fields "status") = true →
      parse_status (.jdict fields) = .error ⟨"KeyError", parseKeyMsg⟩) ∧
    (∀ nameVal statusVal,
      dictGet fields "homework_name" = some nameVal →
      dictGet fields "status" = some statusVal →
      isNoneLike (some nameVal) = false →
      isNoneLike (some statusVal) = false →
      (verdictOf statusVal = none →
        parse_status (.jdict fields) =
          .error ⟨"ValueError", "Неверный статус домашней работы: " ++ pyStr statusVal⟩) ∧
      (∀ verdict, verdictOf statusVal = some verdict →
        parse_status (.jdict fields) =
          .ok ("Изменился статус проверки работы \"" ++ pyStr nameVal ++ "\". " ++ verdict))) := by
  constructor
  · intro h
    unfold parse_status
    rcases h with h | h <;> simp [h]
  · intro nameVal statusVal hn hs hnn hsn
    refine ⟨fun hv => ?_, fun verdict hv => ?_⟩ <;>
      simp [parse_status, hn, hs, hnn, hsn, hv]

/-- C7 witness: Scenario E — a record whose status is "unknown" fails with a
`ValueError` naming the bad value. -/
theorem spec_C7_witness :
    parse_status (.jdict [("homework_name", .jstr "hw1"), ("status", .jstr "unknown")]) =
      .error ⟨"ValueError", "Неверный статус домашней работы: unknown"⟩ := by
  have h := ((spec_C7 [("homework_name", .jstr "hw1"), ("status", .jstr "unknown")]).2
      (.jstr "hw1") (.jstr "unknown") rfl rfl rfl rfl).1 rfl
  exact h

/-- C9: `NotificationState` starts empty and changes only on a cycle whose
provider accepted the send, becoming exactly the message that was just
delivered; on every cycle without a successful send it is unchanged. -/
theorem spec_C9 :
    initState.last_status = "" ∧
    ∀ token env s, (runCycle token env s).state.last_status ≠ s.last_status →
      env.provider = SendResult.ok ∧
      (runCycle token env s).sends = [(runCycle token env s).state.last_status] := by
  refine ⟨rfl, ?_⟩
  intro token env s hchange
  cases hA : get_api_answer token env.http s.timestamp with
  | error e =>
    have hb : cycleBody token env s = .error e := by
      unfold cycleBody
      simp only [hA]
    exact runCycle_error_change token env s e hb hchange
  | ok response =>
    cases hB : check_response response with
    | error e =>
      have hb : cycleBody token env s = .error e := by
        unfold cycleBody
        simp only [hA, hB]
      exact runCycle_error_change token env s e hb hchange
    | ok hws =>
      cases hws with
      | nil =>
        have hb : cycleBody token env s = .ok (s, []) := by
          unfold cycleBody
          simp only [hA, hB]
        rw [runCycle_ok_eq token env s s [] hb] at hchange
        exact absurd rfl hchange
      | cons hw rest =>
        cases hC : parse_status hw with
        | error e =>
          have hb : cycleBody token env s = .error e := by
            unfold cycleBody
            simp only [hA, hB, hC]
          exact runCycle_error_change token env s e hb hchange
        | ok m0 =>
          cases hp : env.provider with
          | ok =>
            have hS : send_message env.provider = true := by
              rw [hp]
              rfl
            have hb : cycleBody token env s =
                .ok ({ last_status := m0,
                       timestamp := jvalGetD response "current_date" s.timestamp }, [m0]) := by
              unfold cycleBody
              simp only [hA, hB, hC, hS, if_true]
            rw [runCycle_ok_eq token env s _ [m0] hb]
            exact ⟨rfl, rfl⟩
          | apiError d =>
            have hS : send_message env.provider = false := by
              rw [hp]
              rfl
            have hb : cycleBody token env s = .ok (s, [m0]) := by
              unfold cycleBody
              simp only [hA, hB, hC, hS]
              rw [if_neg Bool.false_ne_true]
            rw [runCycle_ok_eq token env s s [m0] hb] at hchange
            exact absurd rfl hchange

/-- C9 witness: the Scenario A cycle changes `NotificationState`, the
provider accepted, and the new state is exactly the sent message. -/
theorem spec_C9_witness :
    (runCycle "tok" envA initState).state.last_status ≠ initState.last_status ∧
    envA.provider = SendResult.ok ∧
    (runCycle "tok" envA initState).sends =
      [(runCycle "tok" envA initState).state.last_status] := by
  have hne : (runCycle "tok" envA initState).state.last_status ≠ initState.last_status := by
    decide
  exact ⟨hne, spec_C9.2 "tok" envA initState hne⟩

/-- C10: the startup check treats an empty credential like an absent one,
collects the names of all missing credentials, and raises one
`EnvironmentError` listing exactly those names; with all three set it
returns without raising. -/
theorem spec_C10 (p t c : Option String) :
    tokenFalsy (some "") = tokenFalsy none ∧
    (missingNames p t c = [] → check_tokens p t c = .ok ()) ∧
    (missingNames p t c ≠ [] → check_tokens p t c =
      .error ⟨"EnvironmentError",
        "Отсутствует переменная(ые) окружения: " ++
          String.intercalate ", " (missingNames p t c)⟩) := by
  refine ⟨rfl, ?_, ?_⟩ <;>
    cases hp : tokenFalsy p <;> cases ht : tokenFalsy t <;> cases hc : tokenFalsy c <;>
      simp [check_tokens, missingNames, hp, ht, hc]

/-- C10 witness: an empty `PRACTICUM_TOKEN` and an absent `TELEGRAM_CHAT_ID`
are both collected, and the single error lists the two names. -/
theorem spec_C10_witness :
    missingNames (some "") (some "x") none ≠ [] ∧
    check_tokens (some "") (some "x") none =
      .error ⟨"EnvironmentError",
        "Отсутствует переменная(ые) окружения: PRACTICUM_TOKEN, TELEGRAM_CHAT_ID"⟩ := by
  refine ⟨by decide, ?_⟩
  have h := (spec_C10 (some "") (some "x") none).2.2 (by decide)
  rw [h]
  rfl

end Homework
